import Mathlib

/-!
Shallow embedding of src/tools/waf_tester.py (kemalwaf WAF test suite).

The script issues a fixed catalogue of HTTP requests against a WAF endpoint,
classifies each response as blocked (status 403) or allowed, and reports the
outcome.  Network behaviour is external, so it is modelled as an oracle: a
value of type NetResult per request (success with status, optional parsed
JSON body and elapsed time, or a network-level failure with an error string).
Console output is modelled as a list of output events; the exact rendered
text of human-readable lines is abstracted (the spec places colourised
rendering out of scope), but the order and kind of the events (per-test
lines, summary lines, the JSON document) follow the source.  JSON values are
restricted to the scalar shapes the WAF contract produces (null, bool,
integer, string).
-/

namespace WafTester

/-- Scalar JSON values as the response bodies carry them. -/
inductive JsonValue where
  | null
  | bool (b : Bool)
  | int (n : Int)
  | str (s : String)
  deriving DecidableEq

/-- Python truthiness of a JSON value (None, False, 0 and the empty string
are falsy). -/
def pyTruthy : JsonValue → Bool
  | .null => false
  | .bool b => b
  | .int n => n != 0
  | .str s => !s.isEmpty

/-- Python `a or b`: a when a is truthy, else b. -/
def pyOr (a b : JsonValue) : JsonValue :=
  if pyTruthy a then a else b

/-- A parsed JSON object, as an association list of key/value pairs. -/
abbrev JsonObj := List (String × JsonValue)

/-- Python `d.get(k)`: the value stored under k, or None when the key is
absent (a stored None and an absent key are indistinguishable, as in
Python). -/
def jget (o : JsonObj) (k : String) : JsonValue :=
  (List.lookup k o).getD .null

/-- Constructor tag used to order JSON values; `sorted()` in the source is
only ever applied to integer rule ids (the WAF contract declares rule_id an
integer; Python raises TypeError on mixed comparison), so only the
integer/integer case is ever exercised. -/
def JsonValue.tag : JsonValue → Nat
  | .null => 0
  | .bool _ => 1
  | .int _ => 2
  | .str _ => 3

/-- Comparison used to model `sorted()` over rule ids: integer order on
integers, an arbitrary total transitive order elsewhere. -/
def jsonLe (a b : JsonValue) : Bool :=
  match a, b with
  | .int m, .int n => decide (m ≤ n)
  | _, _ => decide (a.tag ≤ b.tag)

/-- Outcome of one HTTP exchange, supplied by the environment: a response
(status, parsed JSON body if the body parsed, elapsed ms) or a
network-level failure (requests.exceptions.RequestException) with its
description and the elapsed time up to the failure. -/
inductive NetResult where
  | success (status : Int) (body : Option JsonObj) (elapsed : ℚ)
  | failure (errMsg : String) (elapsed : ℚ)

/-- WAFTester.test_request: returns (status_code, parsed json or empty dict,
elapsed ms).  A body that fails to parse as JSON yields the empty mapping; a
network failure is caught and surfaced as status 0 with the error text under
the error key. -/
def test_request (net : NetResult) : Int × JsonObj × ℚ :=
  match net with
  | .success status body elapsed => (status, body.getD [], elapsed)
  | .failure errMsg elapsed => (0, [("error", .str errMsg)], elapsed)

/-- The TestResult dataclass.  rule_id and message hold whatever JSON value
dict.get returned (null when absent); error defaults to None and run_test
never passes it. -/
structure TestResult where
  name : String
  category : String
  payload : String
  expected_blocked : Bool
  actual_blocked : Bool
  status_code : Int
  response_time : ℚ
  rule_id : JsonValue := .null
  message : JsonValue := .null
  error : Option String := none
  deriving DecidableEq

/-- WAFTester.run_test on one already-resolved exchange: classifies blocked
as status == 403, extracts rule_id and message (the latter through Python
`or`, so a falsy message value falls back to the error key), builds the
TestResult.  The append to self.results is modelled at the call sites. -/
def run_test (name category payload : String) (expected_blocked : Bool)
    (net : NetResult) : TestResult :=
  let r := test_request net
  let status_code := r.1
  let response := r.2.1
  let response_time := r.2.2
  let blocked := status_code == 403
  let rule_id := jget response "rule_id"
  let message := pyOr (jget response "message") (jget response "error")
  { name := name
    category := category
    payload := payload
    expected_blocked := expected_blocked
    actual_blocked := blocked
    status_code := status_code
    response_time := response_time
    rule_id := rule_id
    message := message }

/-- One hardcoded test case of run_all_tests: the literal arguments of one
run_test call. -/
structure TestCase where
  name : String
  category : String
  method : String
  path : String
  params : List (String × String) := []
  data : List (String × String) := []
  expected_blocked : Bool := true
  deriving DecidableEq

/-- Rendering of a Python dict for the payload field (str(params or data or
path)).  The exact quoting of the Python repr is not reproduced; no claim
inspects the rendered text. -/
def renderDict (d : List (String × String)) : String :=
  "\x7b" ++ String.intercalate ", "
    (d.map (fun kv => "\x27" ++ kv.1 ++ "\x27: \x27" ++ kv.2 ++ "\x27")) ++ "\x7d"

/-- Python `str(params or data or path)`: an absent or empty dict is falsy. -/
def payloadOf (tc : TestCase) : String :=
  if tc.params ≠ [] then renderDict tc.params
  else if tc.data ≠ [] then renderDict tc.data
  else tc.path

/-- SQL injection group (7 cases, lines 115-128 of the source). -/
def sqliTests : List TestCase :=
  [ { name := "Basic SQLi - Union Select", category := "SQLi", method := "GET",
      path := "/", params := [("id", "1\x27 OR \x271\x27=\x271")] },
    { name := "SQLi - Union Select", category := "SQLi", method := "GET",
      path := "/", params := [("q", "test UNION SELECT password FROM users")] },
    { name := "SQLi - Comment", category := "SQLi", method := "GET",
      path := "/", params := [("id", "1\x27--")] },
    { name := "SQLi - Boolean", category := "SQLi", method := "GET",
      path := "/", params := [("user", "admin\x27 AND \x271\x27=\x271")] },
    { name := "SQLi - Time-based", category := "SQLi", method := "GET",
      path := "/", params := [("id", "1\x27 AND SLEEP(5)--")] },
    { name := "SQLi - POST Body", category := "SQLi", method := "POST",
      path := "/api/login", data := [("password", "pass\x27 OR \x271\x27=\x271")] },
    { name := "SQLi - URL Encoded", category := "SQLi", method := "GET",
      path := "/", params := [("id", "1%27%20OR%20%271%27%3D%271")] } ]

/-- Cross-site scripting group (6 cases, lines 137-148). -/
def xssTests : List TestCase :=
  [ { name := "XSS - Script Tag", category := "XSS", method := "GET",
      path := "/", params := [("q", "<script>alert(\x27xss\x27)</script>")] },
    { name := "XSS - JavaScript Protocol", category := "XSS", method := "GET",
      path := "/", params := [("url", "javascript:alert(1)")] },
    { name := "XSS - Event Handler", category := "XSS", method := "GET",
      path := "/", params := [("input", "<img src=x onerror=alert(1)>")] },
    { name := "XSS - Iframe", category := "XSS", method := "GET",
      path := "/", params := [("content", "<iframe src=evil.com></iframe>")] },
    { name := "XSS - Document Cookie", category := "XSS", method := "GET",
      path := "/", params := [("q", "test<script>document.cookie</script>")] },
    { name := "XSS - POST Body", category := "XSS", method := "POST",
      path := "/api/comment", data := [("comment", "<script>alert(\x27xss\x27)</script>")] } ]

/-- Path traversal group (3 cases, lines 157-162). -/
def pathTraversalTests : List TestCase :=
  [ { name := "LFI - Basic", category := "Path Traversal", method := "GET",
      path := "/", params := [("file", "../../../etc/passwd")] },
    { name := "LFI - Encoded", category := "Path Traversal", method := "GET",
      path := "/", params := [("file", "..%2F..%2F..%2Fetc%2Fpasswd")] },
    { name := "LFI - Null Byte", category := "Path Traversal", method := "GET",
      path := "/", params := [("file", "../../../etc/passwd%00")] } ]

/-- Command injection group (3 cases, lines 171-176). -/
def commandInjectionTests : List TestCase :=
  [ { name := "RCE - Basic", category := "Command Injection", method := "GET",
      path := "/", params := [("cmd", "; ls -la")] },
    { name := "RCE - Pipe", category := "Command Injection", method := "GET",
      path := "/", params := [("input", "test | cat /etc/passwd")] },
    { name := "RCE - Backtick", category := "Command Injection", method := "GET",
      path := "/", params := [("q", "test `whoami`")] } ]

/-- Benign traffic group (3 cases, lines 185-190), expected allowed. -/
def normalTests : List TestCase :=
  [ { name := "Normal GET", category := "Normal", method := "GET",
      path := "/", params := [("page", "home")], expected_blocked := false },
    { name := "Normal POST", category := "Normal", method := "POST",
      path := "/api/users", data := [("name", "John"), ("email", "john@example.com")],
      expected_blocked := false },
    { name := "Normal Query", category := "Normal", method := "GET",
      path := "/search", params := [("q", "hello world")], expected_blocked := false } ]

/-- The full catalogue in execution order. -/
def catalogue : List TestCase :=
  sqliTests ++ xssTests ++ pathTraversalTests ++ commandInjectionTests ++ normalTests

/-- Execution of the i-th catalogue case against the oracle. -/
def runCase (net : Nat → NetResult) (i : Nat) (tc : TestCase) : TestResult :=
  run_test tc.name tc.category (payloadOf tc) tc.expected_blocked (net i)

/-- Report entry for one TestResult in the JSON document (lines 296-306). -/
structure ReportEntry where
  name : String
  category : String
  payload : String
  expected_blocked : Bool
  actual_blocked : Bool
  status_code : Int
  response_time_ms : ℚ
  rule_id : JsonValue
  message : JsonValue
  deriving DecidableEq

/-- Field-for-field copy of a TestResult into its JSON report entry. -/
def toEntry (r : TestResult) : ReportEntry :=
  { name := r.name
    category := r.category
    payload := r.payload
    expected_blocked := r.expected_blocked
    actual_blocked := r.actual_blocked
    status_code := r.status_code
    response_time_ms := r.response_time
    rule_id := r.rule_id
    message := r.message }

/-- The structured document emitted in JSON mode (lines 289-309). -/
structure TestReport where
  timestamp : String
  url : String
  total : Nat
  passed : Nat
  failed : Nat
  results : List ReportEntry
  deriving DecidableEq

/-- Count of results whose classification matched the expectation. -/
def passedCount (results : List TestResult) : Nat :=
  (results.filter (fun r => r.actual_blocked == r.expected_blocked)).length

/-- print_summary computes failed as total minus passed (line 205). -/
def failedCount (results : List TestResult) : Nat :=
  results.length - passedCount results

/-- The results whose classification did not match the expectation
(line 230). -/
def failedTests (results : List TestResult) : List TestResult :=
  results.filter (fun r => r.actual_blocked != r.expected_blocked)

/-- Line 242: sorted(self.results, key response_time, reverse=True)[:5]. -/
def slowTests (results : List TestResult) : List TestResult :=
  (results.mergeSort (fun a b => decide (b.response_time ≤ a.response_time))).take 5

/-- Line 249: the set of truthy rule ids, as a deduplicated list. -/
def triggeredRuleIds (results : List TestResult) : List JsonValue :=
  ((results.filter (fun r => pyTruthy r.rule_id)).map (fun r => r.rule_id)).dedup

/-- Lines 249-254: each triggered rule id in sorted order with the count of
results carrying it. -/
def ruleCoverage (results : List TestResult) : List (JsonValue × Nat) :=
  ((triggeredRuleIds results).mergeSort jsonLe).map
    (fun v => (v, (results.filter (fun r => r.rule_id == v)).length))

/-- The JSON document: timestamp, url, total, passed, failed (counted with
the != comparison at line 294) and every result with all its fields. -/
def buildOutput (ts url : String) (results : List TestResult) : TestReport :=
  { timestamp := ts
    url := url
    total := results.length
    passed := passedCount results
    failed := (results.filter (fun r => r.actual_blocked != r.expected_blocked)).length
    results := results.map toEntry }

/-- One console output event.  Human-readable lines are carried as text
events whose exact rendering is abstracted; testLine stands for one
print_test_result call; jsonDoc for the print of the JSON document. -/
inductive OutEvent where
  | text (s : String)
  | testLine (r : TestResult)
  | jsonDoc (d : TestReport)
  deriving DecidableEq

/-- Mutable state of a run: the accumulated results list and the output
emitted so far. -/
structure RunState where
  results : List TestResult
  out : List OutEvent

/-- One run_test call inside run_all_tests: executes the case (its oracle
index is the number of results so far) and appends the single new
TestResult. -/
def appendResult (net : Nat → NetResult) (st : RunState) (tc : TestCase) : RunState :=
  { st with results := st.results ++ [runCase net st.results.length tc] }

/-- Python `l[-n:]`. -/
def takeLast (n : Nat) (l : List TestResult) : List TestResult :=
  l.drop (l.length - n)

/-- One category block of run_all_tests: prints the header, runs the group
via run_test, then prints the last lastN results (the literal slice constant
of the source, which equals the group size). -/
def runGroup (net : Nat → NetResult) (header : String) (cases : List TestCase)
    (lastN : Nat) (st : RunState) : RunState :=
  let st1 := cases.foldl (appendResult net) { st with out := st.out ++ [.text header] }
  { st1 with out := st1.out ++ (takeLast lastN st1.results).map .testLine }

/-- Summary output events (print_summary, lines 198-257): overall statistics,
failed tests detail, slowest tests, triggered rules.  Only the kinds and
order of the lines are kept; the rendering is abstracted. -/
def summaryOut (results : List TestResult) : List OutEvent :=
  [.text "Test Summary", .text "Overall Statistics"]
  ++ (failedTests results).map (fun r => .text ("FAIL " ++ r.name))
  ++ (slowTests results).map (fun r => .text ("slow " ++ r.name))
  ++ (ruleCoverage results).map (fun p => .text ("rule triggered " ++ toString p.2 ++ " time(s)"))

/-- print_summary returns 0 when failed is 0, else 1 (line 260). -/
def print_summary (results : List TestResult) : List OutEvent × Nat :=
  (summaryOut results, if failedCount results = 0 then 0 else 1)

/-- WAFTester.run_all_tests: banner, the five fixed groups in order, then the
summary.  The final statement (line 196) calls print_summary without a
return, so its computed exit code is discarded and the Python function
returns None; accordingly the model returns only the final state. -/
def run_all_tests (url : String) (net : Nat → NetResult) : RunState :=
  let st0 : RunState :=
    { results := [], out := [.text "WAF Test Suite - kemal-korur", .text ("Target: " ++ url)] }
  let st1 := runGroup net "[1] SQL Injection Tests" sqliTests 7 st0
  let st2 := runGroup net "[2] XSS (Cross-Site Scripting) Tests" xssTests 6 st1
  let st3 := runGroup net "[3] Path Traversal Tests" pathTraversalTests 3 st2
  let st4 := runGroup net "[4] Command Injection Tests" commandInjectionTests 3 st3
  let st5 := runGroup net "[5] Normal Requests (Should Pass)" normalTests 3 st4
  let s := print_summary st5.results
  { st5 with out := st5.out ++ s.1 }

/-- The environment of one invocation: command line url, wall-clock
timestamp, the oracle for the health check request and for the catalogue
requests (indexed by execution order). -/
structure Env where
  url : String
  timestamp : String
  healthNet : NetResult
  net : Nat → NetResult

/-- The observable outcome of main: output events, final results list, and
process exit code. -/
structure MainOutcome where
  out : List OutEvent
  results : List TestResult
  exitCode : Nat

/-- The main function (lines 263-321): health check against /health first
(abort with exit 1 and no tests when the status is not 200), then the full
run; in JSON mode the document is printed after the run and the process
exits 0.  In non-JSON mode, exit_code at line 313 binds the None that
run_all_tests returns, and sys.exit(None) at line 314 terminates the
process with status 0, whatever the failure count. -/
def mainRun (jsonMode : Bool) (env : Env) : MainOutcome :=
  let h := test_request env.healthNet
  if h.1 = 200 then
    let r := run_all_tests env.url env.net
    if jsonMode then
      { out := r.out ++ [.jsonDoc (buildOutput env.timestamp env.url r.results)]
        results := r.results
        exitCode := 0 }
    else
      { out := r.out, results := r.results, exitCode := 0 }
  else
    { out := [.text ("Error: WAF is not responding at " ++ env.url)]
      results := []
      exitCode := 1 }

/-- Execution of a list of cases starting at a given oracle index: the
functional form of the run_test loop. -/
def execCases (net : Nat → NetResult) (start : Nat) : List TestCase → List TestResult
  | [] => []
  | tc :: rest => runCase net start tc :: execCases net (start + 1) rest

/-- True when the event list holds at least one per-test line. -/
def hasTestLine : List OutEvent → Bool
  | [] => false
  | .testLine _ :: _ => true
  | .text _ :: es => hasTestLine es
  | .jsonDoc _ :: es => hasTestLine es

/-- The failed count computed by print_summary (total minus passed) equals
the length of the failed-tests filter, since every result is either a match
or a mismatch. -/
theorem failedCount_eq (results : List TestResult) :
    failedCount results = (failedTests results).length := by
  unfold failedCount passedCount failedTests
  induction results with
  | nil => rfl
  | cons r rest ih =>
    by_cases h : r.actual_blocked = r.expected_blocked <;>
      simp [List.filter_cons, h, Nat.succ_sub, List.length_filter_le] <;>
      omega

/-- C1: run_test classifies actual_blocked as true exactly when the status
code returned by the HTTP client is 403; any other status, including the 0
network-failure sentinel, yields actual_blocked = false. -/
theorem run_test_blocked_iff_403 (name category payload : String)
    (expected_blocked : Bool) (net : NetResult) (errMsg : String) (elapsed : ℚ) :
    ((run_test name category payload expected_blocked net).actual_blocked
      = ((test_request net).1 == 403))
    ∧ ((run_test name category payload expected_blocked net).actual_blocked = true
        ↔ (test_request net).1 = 403)
    ∧ ((run_test name category payload expected_blocked
          (.failure errMsg elapsed)).actual_blocked = false) := by
  refine ⟨rfl, ?_, rfl⟩
  simp [run_test]

/-- C5: on a network-level failure the client adapter returns status code 0,
a payload carrying the failure description under the error key, and the
elapsed time measured up to the failure, rather than propagating. -/
theorem test_request_failure_spec (errMsg : String) (elapsed : ℚ) :
    test_request (.failure errMsg elapsed)
      = (0, [("error", JsonValue.str errMsg)], elapsed) := rfl

/-- C10: run_test never populates the error field of a TestResult, and a
network-failure description reaches the record only through the message
field, via the error key of the payload returned by test_request. -/
theorem run_test_error_field_none (name category payload : String)
    (expected_blocked : Bool) (net : NetResult) (errMsg : String) (elapsed : ℚ) :
    ((run_test name category payload expected_blocked net).error = none)
    ∧ ((run_test name category payload expected_blocked
          (.failure errMsg elapsed)).message = .str errMsg) := by
  constructor
  · rfl
  · rfl

/-- Concrete environment with a healthy target that never blocks. -/
def envOk : Env :=
  { url := "http://localhost:3000"
    timestamp := "2024-01-01T00:00:00"
    healthNet := .success 200 none 0
    net := fun _ => .success 200 (some []) 1 }

set_option maxHeartbeats 2000000 in
/-- C2 (code bug): against a healthy target that never returns 403, all 19
attack cases fail and print_summary computes exit code 1 for the run, yet
the process exits 0 in non-JSON mode: run_all_tests drops the summary
return value (line 196 has no return statement) and returns None, so main
executes sys.exit(None), which terminates with status 0. -/
theorem mainRun_exit_code_bug :
    (mainRun false envOk).exitCode = 0
    ∧ (failedTests (mainRun false envOk).results).length = 19
    ∧ (print_summary (mainRun false envOk).results).2 = 1 := by
  refine ⟨rfl, rfl, rfl⟩

/-- Concrete environment whose health check answers 503. -/
def envSick : Env :=
  { url := "http://localhost:3000"
    timestamp := "2024-01-01T00:00:00"
    healthNet := .success 503 none 0
    net := fun _ => .success 200 (some []) 1 }

/-- C6: when the preliminary GET /health returns a status other than 200,
main aborts with zero TestResults produced and a non-zero exit code, before
any catalogue test executes. -/
theorem health_check_abort (jsonMode : Bool) (env : Env)
    (h : (test_request env.healthNet).1 ≠ 200) :
    (mainRun jsonMode env).results = []
    ∧ (mainRun jsonMode env).exitCode = 1
    ∧ (mainRun jsonMode env).exitCode ≠ 0 := by
  simp [mainRun, h]

/-- Witness for C6 at a concrete environment whose health check yields 503. -/
theorem health_check_abort_witness :
    (mainRun false envSick).results = []
    ∧ (mainRun false envSick).exitCode = 1
    ∧ (mainRun false envSick).exitCode ≠ 0 :=
  health_check_abort false envSick (by decide)

/-- Executing a concatenation of case lists executes the first list and then
the second, with the oracle index shifted by the first length. -/
theorem execCases_append (net : Nat → NetResult) (s : Nat) (l1 l2 : List TestCase) :
    execCases net s (l1 ++ l2) = execCases net s l1 ++ execCases net (s + l1.length) l2 := by
  induction l1 generalizing s with
  | nil => simp [execCases]
  | cons tc rest ih =>
    simp [execCases, ih, Nat.add_assoc, Nat.add_comm 1 rest.length]

/-- Length of an executed case list. -/
theorem length_execCases (net : Nat → NetResult) (s : Nat) (cases : List TestCase) :
    (execCases net s cases).length = cases.length := by
  induction cases generalizing s with
  | nil => rfl
  | cons tc rest ih => simp [execCases, ih]

/-- The run_test loop (folding appendResult) appends exactly the executed
cases, one result per case in order, and emits no output. -/
theorem foldl_appendResult (net : Nat → NetResult) (cases : List TestCase) (st : RunState) :
    cases.foldl (appendResult net) st
      = { results := st.results ++ execCases net st.results.length cases
          out := st.out } := by
  induction cases generalizing st with
  | nil => simp [execCases]
  | cons tc rest ih =>
    simp only [List.foldl_cons, ih, appendResult, execCases]
    simp [List.append_assoc]

/-- One category block appends exactly the results of its own cases. -/
theorem runGroup_results (net : Nat → NetResult) (header : String)
    (cases : List TestCase) (lastN : Nat) (st : RunState) :
    (runGroup net header cases lastN st).results
      = st.results ++ execCases net st.results.length cases := by
  simp [runGroup, foldl_appendResult]

/-- The full run produces exactly the executed catalogue, in order. -/
theorem run_all_tests_results (url : String) (net : Nat → NetResult) :
    (run_all_tests url net).results = execCases net 0 catalogue := by
  rw [catalogue, execCases_append, execCases_append, execCases_append, execCases_append]
  simp [run_all_tests, runGroup_results, length_execCases, sqliTests, xssTests,
    pathTraversalTests, commandInjectionTests, normalTests]

/-- Name, category and expectation of each produced result are copied from
the corresponding case, positionally. -/
theorem map_key_execCases (net : Nat → NetResult) (s : Nat) (cases : List TestCase) :
    (execCases net s cases).map (fun r => (r.name, r.category, r.expected_blocked))
      = cases.map (fun tc => (tc.name, tc.category, tc.expected_blocked)) := by
  induction cases generalizing s with
  | nil => rfl
  | cons tc rest ih => simp [execCases, ih, runCase, run_test]

/-- C4: the run executes exactly the 22 literal catalogue cases in the fixed
order of the spec table (7 SQLi, 6 XSS, 3 Path Traversal, 3 Command
Injection, 3 Normal), every attack case expecting blocked and every Normal
case expecting allowed, and exactly one TestResult per executed case is
appended to the results, in execution order, copying name, category and
expectation from its case. -/
theorem catalogue_run_spec (url : String) (net : Nat → NetResult) :
    catalogue.length = 22
    ∧ catalogue.map (fun tc => tc.category)
        = List.replicate 7 "SQLi" ++ List.replicate 6 "XSS"
          ++ List.replicate 3 "Path Traversal" ++ List.replicate 3 "Command Injection"
          ++ List.replicate 3 "Normal"
    ∧ catalogue.map (fun tc => tc.name)
        = ["Basic SQLi - Union Select", "SQLi - Union Select", "SQLi - Comment",
           "SQLi - Boolean", "SQLi - Time-based", "SQLi - POST Body", "SQLi - URL Encoded",
           "XSS - Script Tag", "XSS - JavaScript Protocol", "XSS - Event Handler",
           "XSS - Iframe", "XSS - Document Cookie", "XSS - POST Body",
           "LFI - Basic", "LFI - Encoded", "LFI - Null Byte",
           "RCE - Basic", "RCE - Pipe", "RCE - Backtick",
           "Normal GET", "Normal POST", "Normal Query"]
    ∧ (∀ tc ∈ catalogue, tc.expected_blocked = (tc.category ≠ "Normal"))
    ∧ (run_all_tests url net).results = execCases net 0 catalogue
    ∧ (run_all_tests url net).results.length = catalogue.length
    ∧ (run_all_tests url net).results.map (fun r => (r.name, r.category, r.expected_blocked))
        = catalogue.map (fun tc => (tc.name, tc.category, tc.expected_blocked)) := by
  refine ⟨by decide, by decide, by decide, by decide, run_all_tests_results url net, ?_, ?_⟩
  · rw [run_all_tests_results, length_execCases]
  · rw [run_all_tests_results, map_key_execCases]

/-- The descending response-time comparison is transitive. -/
theorem slowRel_trans (a b c : TestResult) :
    decide (b.response_time ≤ a.response_time) = true
    → decide (c.response_time ≤ b.response_time) = true
    → decide (c.response_time ≤ a.response_time) = true := by
  simp only [decide_eq_true_eq]
  exact fun h1 h2 => le_trans h2 h1

/-- The descending response-time comparison is total. -/
theorem slowRel_total (a b : TestResult) :
    (decide (b.response_time ≤ a.response_time)
      || decide (a.response_time ≤ b.response_time)) = true := by
  simpa using le_total b.response_time a.response_time

/-- C9: the slowest-tests list has length min(5, total), is sorted descending
by response time, and is a 5-element prefix of a descending-sorted
permutation of the results; every listed result is at least as slow as every
result left out of the prefix. -/
theorem slowTests_spec (results : List TestResult) :
    (slowTests results).length = min 5 results.length
    ∧ List.Pairwise (fun a b => b.response_time ≤ a.response_time) (slowTests results)
    ∧ ∃ s, results.Perm s
        ∧ List.Pairwise (fun a b => b.response_time ≤ a.response_time) s
        ∧ slowTests results = s.take 5
        ∧ ∀ x ∈ slowTests results, ∀ y ∈ s.drop 5, y.response_time ≤ x.response_time := by
  set le : TestResult → TestResult → Bool :=
    fun a b => decide (b.response_time ≤ a.response_time) with hle
  have hsorted : List.Pairwise (fun a b => le a b = true) (results.mergeSort le) :=
    List.sorted_mergeSort slowRel_trans slowRel_total results
  have hsortedP : List.Pairwise (fun a b : TestResult => b.response_time ≤ a.response_time)
      (results.mergeSort le) := by
    refine hsorted.imp ?_
    intro a b h
    simpa [hle] using h
  refine ⟨?_, ?_, results.mergeSort le, ?_, hsortedP, rfl, ?_⟩
  · simp [slowTests, List.length_take, List.length_mergeSort]
  · exact hsortedP.sublist (List.take_sublist 5 (results.mergeSort le))
  · exact (List.mergeSort_perm results le).symm
  · intro x hx y hy
    have hsplit := hsortedP
    rw [← List.take_append_drop 5 (results.mergeSort le)] at hsplit
    exact (List.pairwise_append.mp hsplit).2.2 x hx y hy

/-- The rule-id comparison is transitive. -/
theorem jsonLe_trans (a b c : JsonValue) :
    jsonLe a b = true → jsonLe b c = true → jsonLe a c = true := by
  cases a <;> cases b <;> cases c <;>
    simp [jsonLe, JsonValue.tag] <;> omega

/-- The rule-id comparison is total. -/
theorem jsonLe_total (a b : JsonValue) : (jsonLe a b || jsonLe b a) = true := by
  cases a <;> cases b <;> simp [jsonLe, JsonValue.tag] <;> omega

/-- A result produced by run_test from a block response carrying rule id 0. -/
def ruleZeroResult : TestResult :=
  run_test "Basic SQLi - Union Select" "SQLi" "p" true
    (.success 403 (some [("rule_id", .int 0)]) 1)

/-- Counterexample to C8 as stated: a result observed with the non-null rule
id 0 does not appear in the rule-coverage report, because the source filters
rule ids by Python truthiness and the integer 0 is falsy. -/
theorem ruleCoverage_drops_zero :
    ruleZeroResult.rule_id = JsonValue.int 0
    ∧ JsonValue.int 0 ≠ JsonValue.null
    ∧ ruleCoverage [ruleZeroResult] = [] := by
  have hr : ruleZeroResult.rule_id = JsonValue.int 0 := rfl
  refine ⟨hr, by decide, ?_⟩
  simp [ruleCoverage, triggeredRuleIds, List.filter, hr, pyTruthy]

/-- C8 (amended): the rule-coverage report lists exactly the distinct truthy
(non-null and non-zero) rule ids observed across the results, each with the
count of results carrying that rule id, sorted ascending and without
duplicates. -/
theorem ruleCoverage_spec (results : List TestResult) :
    (∀ v, (∃ c, (v, c) ∈ ruleCoverage results)
        ↔ (pyTruthy v = true ∧ ∃ r ∈ results, r.rule_id = v))
    ∧ (∀ v c, (v, c) ∈ ruleCoverage results
        → c = (results.filter (fun r => r.rule_id == v)).length)
    ∧ List.Pairwise (fun p q : JsonValue × Nat => jsonLe p.1 q.1 = true) (ruleCoverage results)
    ∧ ((ruleCoverage results).map Prod.fst).Nodup := by
  have hmem : ∀ v : JsonValue,
      v ∈ (triggeredRuleIds results).mergeSort jsonLe
        ↔ (pyTruthy v = true ∧ ∃ r ∈ results, r.rule_id = v) := by
    intro v
    rw [List.mem_mergeSort]
    simp only [triggeredRuleIds, List.mem_dedup, List.mem_map, List.mem_filter]
    constructor
    · rintro ⟨r, ⟨hr, ht⟩, hv⟩
      exact ⟨hv ▸ ht, r, hr, hv⟩
    · rintro ⟨ht, r, hr, hv⟩
      exact ⟨r, ⟨hr, hv ▸ ht⟩, hv⟩
  refine ⟨?_, ?_, ?_, ?_⟩
  · intro v
    constructor
    · rintro ⟨c, hc⟩
      rw [ruleCoverage] at hc
      obtain ⟨w, hw, hwv⟩ := List.mem_map.mp hc
      have h1 : w = v := congrArg Prod.fst hwv
      subst h1
      exact (hmem w).mp hw
    · intro hv
      exact ⟨(results.filter (fun r => r.rule_id == v)).length,
        List.mem_map.mpr ⟨v, (hmem v).mpr hv, rfl⟩⟩
  · intro v c hc
    rw [ruleCoverage] at hc
    obtain ⟨w, -, hwv⟩ := List.mem_map.mp hc
    have h1 : w = v := congrArg Prod.fst hwv
    have h2 : (results.filter (fun r => r.rule_id == w)).length = c := congrArg Prod.snd hwv
    subst h1
    exact h2.symm
  · rw [ruleCoverage]
    rw [List.pairwise_map]
    exact List.sorted_mergeSort jsonLe_trans jsonLe_total (triggeredRuleIds results)
  · rw [ruleCoverage]
    rw [List.map_map]
    have : (Prod.fst ∘ fun v : JsonValue =>
        (v, (results.filter (fun r => r.rule_id == v)).length)) = id := rfl
    rw [this, List.map_id]
    exact ((List.mergeSort_perm (triggeredRuleIds results) jsonLe).nodup_iff).mpr
      (List.nodup_dedup _)

/-- A block response whose message key is present but holds the empty
string, next to an error key. -/
def falsyMessageResponse : JsonObj :=
  [("message", .str ""), ("error", .str "connection refused")]

/-- Counterexample to C7 as stated: with the message key present but bound
to the falsy empty string, run_test stores the error value instead of the
message value, because the source combines the two lookups with Python
`or`. -/
theorem run_test_message_falsy_fallback :
    List.lookup "message" falsyMessageResponse = some (JsonValue.str "")
    ∧ (run_test "n" "c" "p" true (.success 403 (some falsyMessageResponse) 1)).message
        = JsonValue.str "connection refused"
    ∧ JsonValue.str "connection refused" ≠ JsonValue.str "" := by
  refine ⟨rfl, rfl, by decide⟩

/-- C7 (amended): run_test sets rule_id to the value of the rule_id key of
the parsed response when present (null when absent), and sets message to the
value of the message key when that value is truthy, falling back to the
value of the error key when the message key is absent or its value is falsy
(null, false, 0 or the empty string). -/
theorem run_test_extraction (name category payload : String)
    (expected_blocked : Bool) (net : NetResult) :
    (∀ v, List.lookup "rule_id" (test_request net).2.1 = some v
        → (run_test name category payload expected_blocked net).rule_id = v)
    ∧ (List.lookup "rule_id" (test_request net).2.1 = none
        → (run_test name category payload expected_blocked net).rule_id = .null)
    ∧ (run_test name category payload expected_blocked net).message
        = (if pyTruthy (jget (test_request net).2.1 "message") = true
           then jget (test_request net).2.1 "message"
           else jget (test_request net).2.1 "error") := by
  refine ⟨?_, ?_, ?_⟩
  · intro v hv
    simp [run_test, jget, hv]
  · intro hv
    simp [run_test, jget, hv]
  · rfl

/-- Witness instantiating C7 on a response carrying both keys with truthy
values. -/
theorem run_test_extraction_witness :
    (run_test "Basic SQLi - Union Select" "SQLi" "p" true
        (.success 403 (some [("rule_id", .int 100), ("message", .str "SQLi blocked")]) 2)).rule_id
      = JsonValue.int 100 :=
  (run_test_extraction "Basic SQLi - Union Select" "SQLi" "p" true
    (.success 403 (some [("rule_id", .int 100), ("message", .str "SQLi blocked")]) 2)).1
    (JsonValue.int 100) rfl

/-- True exactly on the JSON-document output event. -/
def isDoc : OutEvent → Bool
  | .jsonDoc _ => true
  | _ => false

/-- The summary prints only human-readable lines, never a JSON document. -/
theorem summaryOut_no_doc (results : List TestResult) :
    (summaryOut results).all (fun e => !isDoc e) = true := by
  rw [List.all_eq_true]
  intro e he
  simp only [summaryOut, List.mem_append, List.mem_cons, List.mem_map,
    List.not_mem_nil, or_false] at he
  obtain (((rfl | rfl) | ⟨r, -, rfl⟩) | ⟨r, -, rfl⟩) | ⟨p, -, rfl⟩ := he <;> rfl

/-- A category block appends only human-readable lines to the output. -/
theorem runGroup_out (net : Nat → NetResult) (header : String)
    (cases : List TestCase) (lastN : Nat) (st : RunState) :
    (runGroup net header cases lastN st).out
      = st.out ++ ([OutEvent.text header]
          ++ (takeLast lastN (st.results ++ execCases net st.results.length cases)).map
              OutEvent.testLine) := by
  simp [runGroup, foldl_appendResult]

/-- The full run prints per-test lines and text only: no JSON document ever
appears in the output of run_all_tests. -/
theorem run_all_tests_no_doc (url : String) (net : Nat → NetResult) :
    ((run_all_tests url net).out).all (fun e => !isDoc e) = true := by
  have hgroup : ∀ (header : String) (cases : List TestCase) (lastN : Nat) (st : RunState),
      st.out.all (fun e => !isDoc e) = true
      → ((runGroup net header cases lastN st).out).all (fun e => !isDoc e) = true := by
    intro header cases lastN st hst
    rw [runGroup_out, List.all_append, Bool.and_eq_true]
    refine ⟨hst, ?_⟩
    rw [List.all_append, Bool.and_eq_true]
    exact ⟨rfl, by simp [List.all_map, Function.comp, isDoc]⟩
  simp only [run_all_tests, print_summary]
  rw [List.all_append, Bool.and_eq_true]
  exact ⟨hgroup _ _ _ _ (hgroup _ _ _ _ (hgroup _ _ _ _ (hgroup _ _ _ _
    (hgroup _ _ _ _ rfl)))), summaryOut_no_doc _⟩

/-- C3 (amended): in JSON mode, once the health check passes, the structured
document (timestamp, target url, total, passed and failed counts, and every
TestResult with all its fields) is emitted as the single and final document
event, after the full run completes; the human-readable per-test and summary
printing of the run still occurs before it. -/
theorem mainRun_json_spec (env : Env)
    (h : (test_request env.healthNet).1 = 200) :
    ((mainRun true env).out
      = (run_all_tests env.url env.net).out
        ++ [OutEvent.jsonDoc
              (buildOutput env.timestamp env.url (run_all_tests env.url env.net).results)])
    ∧ (∀ e ∈ (run_all_tests env.url env.net).out, ∀ d, e ≠ OutEvent.jsonDoc d)
    ∧ (mainRun true env).results = (run_all_tests env.url env.net).results
    ∧ buildOutput env.timestamp env.url (run_all_tests env.url env.net).results
        = { timestamp := env.timestamp
            url := env.url
            total := (run_all_tests env.url env.net).results.length
            passed := passedCount (run_all_tests env.url env.net).results
            failed := (failedTests (run_all_tests env.url env.net).results).length
            results := (run_all_tests env.url env.net).results.map toEntry } := by
  have h1 : (mainRun true env).out
      = (run_all_tests env.url env.net).out
        ++ [OutEvent.jsonDoc
              (buildOutput env.timestamp env.url (run_all_tests env.url env.net).results)] := by
    simp [mainRun, h]
  have h2 : (mainRun true env).results = (run_all_tests env.url env.net).results := by
    simp [mainRun, h]
  have h3 : buildOutput env.timestamp env.url (run_all_tests env.url env.net).results
      = { timestamp := env.timestamp
          url := env.url
          total := (run_all_tests env.url env.net).results.length
          passed := passedCount (run_all_tests env.url env.net).results
          failed := (failedTests (run_all_tests env.url env.net).results).length
          results := (run_all_tests env.url env.net).results.map toEntry } := rfl
  refine ⟨h1, ?_, h2, h3⟩
  intro e he d
  have hall := List.all_eq_true.mp (run_all_tests_no_doc env.url env.net) e he
  cases e <;> simp_all [isDoc]

/-- Witness for C3 at a concrete healthy environment. -/
theorem mainRun_json_spec_witness :
    (mainRun true envOk).out
      = (run_all_tests envOk.url envOk.net).out
        ++ [OutEvent.jsonDoc
              (buildOutput envOk.timestamp envOk.url
                (run_all_tests envOk.url envOk.net).results)] :=
  (mainRun_json_spec envOk rfl).1

set_option maxHeartbeats 2000000 in
/-- Counterexample to C3 as stated: in JSON mode the run still performs the
incremental per-test printing, since main calls the same run_all_tests
before printing the document. -/
theorem mainRun_json_prints_tests :
    hasTestLine (mainRun true envOk).out = true := by
  rfl

end WafTester
